import Mathlib

/-!
A shallow embedding of the browser-side scan orchestration core of the
Vision AI Scanner repository (`src/static/scanner.js` together with the
constants module), and proofs about it.

The embedding models the module-scope mutable variables of `scanner.js` as an
explicit record (`ScannerState`), timers and the animation-frame handle as
`Option`/`Bool` fields (a `some`/`true` value means the handle is active), and
the DOM/UI calls by the one piece of UI state the properties below mention:
whether the scan button is disabled (`syncUI` and `disableScanButton` both
write it).  Network requests are external, so `captureAndAnalyze` takes the
fetch outcome as an explicit argument; `Math.random` jitter is likewise an
explicit rational argument.  Rationals stand in for JavaScript numbers: every
quantity the code manipulates here (pixel sums divided by counts, delays,
similarity ratios) is exactly representable.
-/

namespace Scanner

/-- The `ScanState` enumeration of `constants.js`. -/
inductive ScanState where
  | IDLE
  | SCANNING
  | ANALYZING
  | PAUSED_ERROR
  | PAUSED_DUPLICATE
  | COOLDOWN
deriving DecidableEq, Repr

open ScanState

/-- The analysis modes of the scanner (`currentMode` values). -/
inductive Mode where
  | text | object | label | face | logo | classify | web
deriving DecidableEq, Repr

/-- The frame-source kinds returned by `getCurrentSource()` in `camera.js`. -/
inductive Source where
  | camera | image | file
deriving DecidableEq, Repr

/-- Table `SCAN_TRANSITIONS` from `constants.js`: the allowed targets per state. -/
def scanTransitions : ScanState → List ScanState
  | IDLE             => [SCANNING]
  | SCANNING         => [IDLE, ANALYZING, PAUSED_DUPLICATE]
  | ANALYZING        => [IDLE, SCANNING, PAUSED_ERROR, PAUSED_DUPLICATE, COOLDOWN]
  | PAUSED_ERROR     => [IDLE, SCANNING]
  | PAUSED_DUPLICATE => [IDLE, SCANNING]
  | COOLDOWN         => [IDLE, SCANNING]

/-- Numeric constants from `constants.js`. -/
def STABILITY_THRESHOLD : ℕ := 20
def MOTION_THRESHOLD : ℚ := 30
def MOTION_CANVAS_WIDTH : ℕ := 64
def MOTION_CANVAS_HEIGHT : ℕ := 48
def RETRY_BASE_DELAY_MS : ℚ := 5000
def RETRY_MAX_DELAY_MS : ℚ := 60000
def CONTINUOUS_SCAN_INTERVAL_MS : ℕ := 3000
def IMAGE_HASH_SIZE : ℕ := 8
def IMAGE_HASH_THRESHOLD : ℚ := 95 / 100

/-- The module-scope mutable state of `scanner.js`.  Timer ids are modelled by
the payload they would deliver (`retryTimer` holds the scheduled delay,
`continuousDelayTimer` the interval) — `some`/`true` means the handle is
live, `none`/`false` that it is `null`.  `btnScanDisabled` is the `disabled`
property of the scan button, written by `syncUI` and `disableScanButton`.
`pendingImmediateCapture` records that `startScanning` reached its
static-image branch and synchronously invoked `captureAndAnalyze` (that call
is processed as a separate step because its outcome depends on the fetch). -/
structure ScannerState where
  scanState : ScanState
  currentMode : Mode
  isSingleShot : Bool
  retryTimer : Option ℚ
  consecutiveErrorCount : ℕ
  continuousDelayTimer : Option ℕ
  cooldownTimerActive : Bool
  cooldownRemaining : ℕ
  shouldRestartAfterCooldown : Bool
  lastSentImageHash : Option (List ℕ)
  lastResultFingerprint : Option String
  duplicateCount : ℕ
  lastFrameData : Option (List ℕ)
  stabilityCounter : ℕ
  scanFrameCount : ℕ
  scanRafActive : Bool
  btnScanDisabled : Bool
  pendingImmediateCapture : Bool
deriving DecidableEq, Repr

/-- The module state right after load: every variable at its initializer. -/
def initialState : ScannerState where
  scanState := IDLE
  currentMode := Mode.text
  isSingleShot := true
  retryTimer := none
  consecutiveErrorCount := 0
  continuousDelayTimer := none
  cooldownTimerActive := false
  cooldownRemaining := 0
  shouldRestartAfterCooldown := false
  lastSentImageHash := none
  lastResultFingerprint := none
  duplicateCount := 0
  lastFrameData := none
  stabilityCounter := 0
  scanFrameCount := 0
  scanRafActive := false
  btnScanDisabled := false
  pendingImmediateCapture := false

/-- Ambient facts the orchestrator reads but does not own: the current frame
source, whether the source element has a nonzero width (`sourceW` truthy),
the client-side daily-limit check (`isApiLimitReached()`, identically false
while `ENFORCE_CLIENT_DAILY_LIMIT` is false), and the configurable
`DUPLICATE_SKIP_COUNT`. -/
structure Env where
  source : Source
  sourceReady : Bool
  apiLimitReached : Bool
  dupSkipCount : ℕ
deriving DecidableEq, Repr

/-- The effect of `syncUI(state)` on the scan button's `disabled` property
(`ui-manager.js`): `ANALYZING` and `COOLDOWN` disable it, every other state
re-enables it. -/
def syncUIDisables : ScanState → Bool
  | ANALYZING => true
  | COOLDOWN => true
  | _ => false

/-- Function `transitionTo(newState)` of `scanner.js`: a same-state transition is a
no-op success (no `syncUI` call); a target outside `SCAN_TRANSITIONS` of the
current state is rejected with no mutation; otherwise the new state is
committed and `syncUI` runs.  Returns the updated state paired with the
boolean result. -/
def transitionTo (st : ScannerState) (newState : ScanState) : ScannerState × Bool :=
  if st.scanState = newState then (st, true)
  else if newState ∈ scanTransitions st.scanState then
    ({ st with scanState := newState, btnScanDisabled := syncUIDisables newState }, true)
  else (st, false)

/-- JavaScript `Math.abs(a - b)` for two byte values. -/
def natAbsDiff (a b : ℕ) : ℕ := ((a : ℤ) - (b : ℤ)).natAbs

/-- The accumulation loop of `compareImageHash`: the summed absolute
per-cell difference of two hash arrays (stops at the shorter array, as the
JavaScript loop would read `undefined` past the end — the arrays always have
equal length where the sum is used). -/
def sumAbsDiff : List ℕ → List ℕ → ℕ
  | a :: as, b :: bs => natAbsDiff a b + sumAbsDiff as bs
  | _, _ => 0

/-- Function `compareImageHash(hashA, hashB)` of `scanner.js`: 0 when either hash is
null or the lengths differ, otherwise `1 - totalDiff / (length * 255)`. -/
def compareImageHash (hashA hashB : Option (List ℕ)) : ℚ :=
  match hashA, hashB with
  | some a, some b =>
    if a.length ≠ b.length then 0
    else 1 - (sumAbsDiff a b : ℚ) / ((a.length : ℚ) * 255)
  | _, _ => 0

/-- A dash as accepted by the confidence-suffix pattern `[-–]`. -/
def isDashChar (c : Char) : Bool := c = '-' ∨ c = '–'

/-- Matching of the anchored pattern `\s*[-–]\s*\d+%\s*$` against a string
given in reverse character order: returns the (reversed) prefix left after
removing the matched suffix, or `none` when the pattern does not match.
Greedy whitespace consumption reproduces the leftmost match that
`String.replace` removes. -/
def stripConfSuffixRev (cs : List Char) : Option (List Char) :=
  match cs.dropWhile Char.isWhitespace with
  | '%' :: rest =>
    if (rest.takeWhile Char.isDigit).isEmpty then none
    else
      match (rest.dropWhile Char.isDigit).dropWhile Char.isWhitespace with
      | c :: rest' =>
        if isDashChar c then some (rest'.dropWhile Char.isWhitespace) else none
      | [] => none
  | _ => none

/-- The step `label.replace(/\s*[-–]\s*\d+%\s*$/, '')`: strip a trailing
confidence suffix consisting of a dash (hyphen-minus or en-dash), digits and
a percent sign, with optional whitespace around the pieces. -/
def stripConfidence (s : String) : String :=
  match stripConfSuffixRev s.data.reverse with
  | some kept => String.mk kept.reverse
  | none => s

/-- Modelled from the spec's words for claim C7 only: the same stripping
step but with the pattern read as "optional dash + digits + `%`"
(`\s*[-–]?\s*\d+%\s*$`), i.e. the dash may be absent.  Compared against the
source-derived `stripConfidence` to settle C7. -/
def stripConfSuffixRevSpec (cs : List Char) : Option (List Char) :=
  match cs.dropWhile Char.isWhitespace with
  | '%' :: rest =>
    if (rest.takeWhile Char.isDigit).isEmpty then none
    else
      match (rest.dropWhile Char.isDigit).dropWhile Char.isWhitespace with
      | c :: rest' =>
        if isDashChar c then some (rest'.dropWhile Char.isWhitespace)
        else some (c :: rest')
      | [] => some []
  | _ => none

/-- Modelled from the spec's words for claim C7 only: wrapper of
`stripConfSuffixRevSpec`, the dash-optional variant of `stripConfidence`. -/
def stripConfidenceSpec (s : String) : String :=
  match stripConfSuffixRevSpec s.data.reverse with
  | some kept => String.mk kept.reverse
  | none => s

/-- JavaScript `String.prototype.trim()`: remove leading and trailing
whitespace (written on the character list so that proofs can evaluate it). -/
def jsTrim (s : String) : String :=
  String.mk (((s.data.dropWhile Char.isWhitespace).reverse.dropWhile
    Char.isWhitespace).reverse)

/-- JavaScript `String.prototype.toLowerCase()` on the character list
(ASCII case folding, which covers every label these claims touch). -/
def jsToLower (s : String) : String :=
  String.mk (s.data.map Char.toLower)

/-- JavaScript `Array.prototype.join(sep)`. -/
def joinWith (sep : String) : List String → String
  | [] => ""
  | [s] => s
  | s :: rest => s ++ sep ++ joinWith sep rest

/-- The code-point lexicographic order that JavaScript's default
`Array.sort` comparator applies to these labels (written over `Char.toNat`
so proofs can evaluate it). -/
def charListLe : List Char → List Char → Bool
  | [], _ => true
  | _ :: _, [] => false
  | a :: as, b :: bs =>
    if a.toNat < b.toNat then true
    else if b.toNat < a.toNat then false
    else charListLe as bs

/-- String comparison backing the label sort. -/
def strLe (s t : String) : Bool := charListLe s.data t.data

/-- Insertion into a sorted list of strings. -/
def insertSorted (s : String) : List String → List String
  | [] => [s]
  | t :: ts => if strLe s t then s :: t :: ts else t :: insertSorted s ts

/-- JavaScript `Array.prototype.sort()` on an array of strings. -/
def sortStrings : List String → List String
  | [] => []
  | s :: ss => insertSorted s (sortStrings ss)

/-- One element of the `data` array of an API response; only the `label`
field feeds the result fingerprint. -/
structure ResultItem where
  label : String
deriving DecidableEq, Repr

/-- The parsed JSON body of an `/api/analyze` response, restricted to the
fields the orchestrator reads.  `webBestGuess` is `web_detail.best_guess`
(`none` for a missing field), `limitType`/`retryAfter` accompany HTTP 429. -/
structure ApiResponse where
  ok : Bool
  data : List ResultItem
  labelDetected : Bool
  labelReason : String
  webBestGuess : Option String
  limitType : Option String
  retryAfter : Option ℕ
deriving DecidableEq, Repr

/-- Function `computeResultFingerprint(result)` of `scanner.js`: `none` for a
non-ok result; `web` mode keys on `best_guess` (empty string is falsy,
hence `none`); `label` mode concatenates the verdict and its reason; every
other mode trims each item's label, strips the trailing confidence suffix,
lowercases, drops empties, sorts, and prefixes the count — `none` when the
data array or the cleaned label list is empty. -/
def computeResultFingerprint (mode : Mode) (result : ApiResponse) : Option String :=
  if ¬result.ok then none
  else match mode with
  | Mode.web =>
    match result.webBestGuess with
    | some s => if s = "" then none else some s
    | none => none
  | Mode.label =>
    some ("label:" ++ (if result.labelDetected then "true" else "false")
      ++ ":" ++ result.labelReason)
  | _ =>
    if result.data.isEmpty then none
    else
      let labels := sortStrings
        (((result.data.map
            (fun item => jsToLower (stripConfidence (jsTrim item.label)))).filter
          (fun l => l ≠ "")))
      if labels.isEmpty then none
      else some ("n" ++ toString labels.length ++ ":" ++ joinWith "|" labels)

/-- Modelled from the spec's words for claim C7 only: the list-mode branch
of the fingerprint with the dash-optional stripping, used to compare the
claim's description against the source. -/
def computeResultFingerprintSpec (mode : Mode) (result : ApiResponse) : Option String :=
  if ¬result.ok then none
  else match mode with
  | Mode.web =>
    match result.webBestGuess with
    | some s => if s = "" then none else some s
    | none => none
  | Mode.label =>
    some ("label:" ++ (if result.labelDetected then "true" else "false")
      ++ ":" ++ result.labelReason)
  | _ =>
    if result.data.isEmpty then none
    else
      let labels := sortStrings
        (((result.data.map
            (fun item => jsToLower (stripConfidenceSpec (jsTrim item.label)))).filter
          (fun l => l ≠ "")))
      if labels.isEmpty then none
      else some ("n" ++ toString labels.length ++ ":" ++ joinWith "|" labels)

/-- Function `scheduleRetry()` of `scanner.js`, with the jitter draw
(`0.75 + Math.random() * 0.5`) passed in explicitly: does nothing unless
`PAUSED_ERROR`; otherwise clears any pending retry timer, increments the
consecutive-error count, and schedules a timer for
`min(RETRY_BASE_DELAY_MS * 2^(n-1) * jitter, RETRY_MAX_DELAY_MS)`. -/
def scheduleRetry (st : ScannerState) (jitter : ℚ) : ScannerState :=
  if st.scanState ≠ PAUSED_ERROR then st
  else
    let n := st.consecutiveErrorCount + 1
    let delay := min (RETRY_BASE_DELAY_MS * 2 ^ (n - 1) * jitter) RETRY_MAX_DELAY_MS
    { st with consecutiveErrorCount := n, retryTimer := some delay }

/-- Function `startScanning()` of `scanner.js`.  On the client-side daily limit the
scan button is disabled and nothing else happens; otherwise `IDLE → SCANNING`
is attempted, counters are reset, and either the static-image branch
synchronously invokes `captureAndAnalyze` (recorded in
`pendingImmediateCapture`) or the animation-frame loop is started. -/
def startScanning (env : Env) (st : ScannerState) : ScannerState :=
  if env.apiLimitReached then { st with btnScanDisabled := true }
  else
    let r := transitionTo st SCANNING
    if ¬r.2 then r.1
    else
      let st1 := { r.1 with consecutiveErrorCount := 0, lastSentImageHash := none }
      if env.source = Source.image then
        { st1 with pendingImmediateCapture := true }
      else
        { st1 with scanFrameCount := 0, scanRafActive := true }

/-- Function `stopCooldownCountdown()` of `scanner.js`: clears the cooldown interval
and remaining-seconds counter; if a countdown was actually running while the
state is still `COOLDOWN`, forces the state to `IDLE` (direct assignment plus
`syncUI`, not `transitionTo`); finally, if a start was requested during the
cooldown, consumes the flag and calls `startScanning`. -/
def stopCooldownCountdown (env : Env) (st : ScannerState) : ScannerState :=
  let wasActive := st.cooldownTimerActive
  let st1 := { st with cooldownTimerActive := false, cooldownRemaining := 0 }
  let st2 :=
    if wasActive ∧ st1.scanState = COOLDOWN then
      { st1 with scanState := IDLE, btnScanDisabled := syncUIDisables IDLE }
    else st1
  if st2.shouldRestartAfterCooldown then
    startScanning env { st2 with shouldRestartAfterCooldown := false }
  else st2

/-- Function `startCooldownCountdown(seconds)` of `scanner.js`: clears any previous
countdown, then seeds the remaining-seconds counter and starts the
once-per-second interval. -/
def startCooldownCountdown (env : Env) (seconds : ℕ) (st : ScannerState) : ScannerState :=
  let st1 := stopCooldownCountdown env st
  { st1 with cooldownRemaining := seconds, cooldownTimerActive := true }

/-- Function `stopScanning()` of `scanner.js`: forces the state to `IDLE` (direct
assignment plus `syncUI`, bypassing the transition table), cancels the
animation frame, the retry timer and the continuous-scan delay timer, runs
`stopCooldownCountdown`, and resets the stability and duplicate-detection
bookkeeping. -/
def stopScanning (env : Env) (st : ScannerState) : ScannerState :=
  let st1 := { st with scanState := IDLE, btnScanDisabled := syncUIDisables IDLE,
                       scanRafActive := false,
                       retryTimer := none, continuousDelayTimer := none }
  let st2 := stopCooldownCountdown env st1
  { st2 with lastFrameData := none, stabilityCounter := 0,
             duplicateCount := 0, lastResultFingerprint := none }

/-- The outcome of `await fetchWithRetry(...)` followed by
`response.json()`, as seen by `captureAndAnalyze`: a parsed body with its
HTTP status, a body that fails to parse, or a thrown error (timeout abort,
exhausted retries, or another network error). -/
inductive FetchResult where
  | success (status : ℕ) (resp : ApiResponse)
  | jsonError (status : ℕ)
  | abortError
  | retriesExhausted
  | netError
deriving DecidableEq, Repr

/-- The synchronous prefix of `captureAndAnalyze()` — everything before the
first `await`.  Guards (source not ready, already `ANALYZING`, client-side
limit) return unchanged; otherwise the state moves to `ANALYZING`, the
perceptual-hash gate compares the candidate crop's hash (`curHash`, computed
outside since the pixels are external) against the last sent hash and either
aborts the submission (resuming `SCANNING` for a continuous camera scan,
`stopScanning` otherwise) or cancels the animation frame and issues the
request.  The boolean reports whether the request was issued. -/
def captureAndAnalyzeSync (env : Env) (curHash : List ℕ) (st : ScannerState) :
    ScannerState × Bool :=
  if ¬env.sourceReady ∨ st.scanState = ANALYZING ∨ env.apiLimitReached then (st, false)
  else
    let st1 := (transitionTo st ANALYZING).1
    match st1.lastSentImageHash with
    | some prev =>
      if IMAGE_HASH_THRESHOLD ≤ compareImageHash (some curHash) (some prev) then
        if !st1.isSingleShot && (env.source = Source.camera : Bool) then
          let st2 := (transitionTo st1 SCANNING).1
          ({ st2 with stabilityCounter := 0, lastFrameData := none,
                      scanRafActive := true }, false)
        else (stopScanning env st1, false)
      else ({ st1 with scanRafActive := false }, true)
    | none => ({ st1 with scanRafActive := false }, true)

/-- The `finally` block of `captureAndAnalyze`: when the state is still
`ANALYZING`, either commit the deferred duplicate pause through the
`SCANNING` hop and restart the loop, or (continuous camera scan) return to
`SCANNING` and arm the inter-scan delay timer, or (single-shot / static
image) return to `IDLE`. -/
def finallySettle (wasStreamingScan pendingDuplicatePause : Bool)
    (st : ScannerState) : ScannerState :=
  if st.scanState = ANALYZING then
    if pendingDuplicatePause && wasStreamingScan then
      let st1 := (transitionTo st SCANNING).1
      let st2 := (transitionTo st1 PAUSED_DUPLICATE).1
      { st2 with scanRafActive := true }
    else if !st.isSingleShot && wasStreamingScan then
      let st1 := (transitionTo st SCANNING).1
      { st1 with continuousDelayTimer := some CONTINUOUS_SCAN_INTERVAL_MS }
    else (transitionTo st IDLE).1
  else st

/-- The response-handling half of `captureAndAnalyze` (the `try` body from
the first `await` on, the `catch`, and the `finally`), applied to the state
left by `captureAndAnalyzeSync` when the request was issued. -/
def handleAnalyzeResponse (env : Env) (curHash : List ℕ) (fetch : FetchResult)
    (jitter : ℚ) (st : ScannerState) : ScannerState :=
  let wasStreamingScan : Bool := env.source = Source.camera
  match fetch with
  | FetchResult.jsonError _ => finallySettle wasStreamingScan false st
  | FetchResult.success status resp =>
    if status = 429 then
      if resp.limitType = some "daily" then
        finallySettle wasStreamingScan false { st with btnScanDisabled := true }
      else
        let retryAfter := resp.retryAfter.getD 10
        let st1 := (transitionTo st COOLDOWN).1
        let st2 := startCooldownCountdown env retryAfter st1
        finallySettle wasStreamingScan false st2
    else if resp.ok then
      let st1 := { st with consecutiveErrorCount := 0,
                           lastSentImageHash := some curHash }
      let fp := computeResultFingerprint st1.currentMode resp
      let stP :=
        if fp.isSome && fp == st1.lastResultFingerprint then
          let st2 := { st1 with duplicateCount := st1.duplicateCount + 1 }
          (st2, decide (env.dupSkipCount ≤ st2.duplicateCount))
        else
          ({ st1 with duplicateCount := if fp.isSome then 1 else 0 }, false)
      let st3 := if fp.isSome then { stP.1 with lastResultFingerprint := fp } else stP.1
      finallySettle wasStreamingScan stP.2 st3
    else
      finallySettle wasStreamingScan false st
  | _ =>
    -- catch: AbortError / exhausted retries / other network error
    if wasStreamingScan then
      let st1 := (transitionTo st PAUSED_ERROR).1
      let st2 := scheduleRetry st1 jitter
      finallySettle wasStreamingScan false st2
    else finallySettle wasStreamingScan false st

/-- Function `captureAndAnalyze()` in full: the synchronous prefix, then — when a
request was issued — the handling of its outcome.  The boolean reports
whether a request was issued (false on a guard exit or a hash-gate skip). -/
def captureAndAnalyze (env : Env) (st : ScannerState) (curHash : List ℕ)
    (fetch : FetchResult) (jitter : ℚ) : ScannerState × Bool :=
  let r := captureAndAnalyzeSync env curHash st
  if r.2 then (handleAnalyzeResponse env curHash fetch jitter r.1, true)
  else (r.1, false)

/-- The inner loop of `checkStabilityAndCapture`: the summed absolute RGB
channel difference of two RGBA rasters, iterating with stride 4 and skipping
the alpha channel. -/
def frameDiff : List ℕ → List ℕ → ℕ
  | r :: g :: b :: _ :: rest, r' :: g' :: b' :: _ :: rest' =>
    natAbsDiff r r' + natAbsDiff g g' + natAbsDiff b b' + frameDiff rest rest'
  | _, _ => 0

/-- Quantity `avgDiff` of `checkStabilityAndCapture`: the accumulated channel
difference divided by the motion-canvas pixel count (64 × 48). -/
def avgDiff (current last : List ℕ) : ℚ :=
  (frameDiff current last : ℚ) / ((MOTION_CANVAS_WIDTH : ℚ) * (MOTION_CANVAS_HEIGHT : ℚ))

/-- Function `checkStabilityAndCapture()` of `scanner.js`, one tick: takes the
downsampled current frame (`curFrame`, the motion-canvas RGBA data) and the
hash the capture pipeline would compute for the crop (`curHash`).  With no
previous frame the raster is only stored.  Otherwise: a stable frame
(`avgDiff < MOTION_THRESHOLD`) increments the counter, and on reaching the
threshold either pins the counter at the threshold while `PAUSED_DUPLICATE`
(returning before the raster store, as the early `return` does) or fires the
capture (the returned boolean) and resets the counter; a moving frame resets
the counter and releases a duplicate pause.  The raster store at the end of
the function runs on every path except the pinned early return. -/
def checkStabilityAndCapture (env : Env) (curFrame curHash : List ℕ)
    (st : ScannerState) : ScannerState × Bool :=
  if ¬env.sourceReady then (st, false)
  else
    match st.lastFrameData with
    | none => ({ st with lastFrameData := some curFrame }, false)
    | some lastF =>
      if avgDiff curFrame lastF < MOTION_THRESHOLD then
        let c := st.stabilityCounter + 1
        if STABILITY_THRESHOLD ≤ c then
          if st.scanState = PAUSED_DUPLICATE then
            ({ st with stabilityCounter := STABILITY_THRESHOLD }, false)
          else
            let st1 := (captureAndAnalyzeSync env curHash
              { st with stabilityCounter := c }).1
            ({ st1 with stabilityCounter := 0, lastFrameData := some curFrame }, true)
        else ({ st with stabilityCounter := c, lastFrameData := some curFrame }, false)
      else
        let st1 := { st with stabilityCounter := 0 }
        let st2 :=
          if st1.scanState = PAUSED_DUPLICATE ∨ 0 < st1.duplicateCount then
            let stA := if st1.scanState = PAUSED_DUPLICATE
                       then (transitionTo st1 SCANNING).1 else st1
            { stA with duplicateCount := 0, lastResultFingerprint := none }
          else st1
        ({ st2 with lastFrameData := some curFrame }, false)

/-- One invocation of `scanLoop()`: exits (without re-arming the animation
frame) unless the state is `SCANNING` or `PAUSED_DUPLICATE`; increments the
frame counter; thins `PAUSED_DUPLICATE` ticks to one in fifteen; otherwise
runs the stability check and re-arms the frame callback. -/
def scanLoopTick (env : Env) (curFrame curHash : List ℕ)
    (st : ScannerState) : ScannerState × Bool :=
  if st.scanState ≠ SCANNING ∧ st.scanState ≠ PAUSED_DUPLICATE then
    ({ st with scanRafActive := false }, false)
  else
    let st1 := { st with scanFrameCount := st.scanFrameCount + 1 }
    if st1.scanState = PAUSED_DUPLICATE ∧ st1.scanFrameCount % 15 ≠ 0 then
      ({ st1 with scanRafActive := true }, false)
    else
      let r := checkStabilityAndCapture env curFrame curHash st1
      ({ r.1 with scanRafActive := true }, r.2)

/-- A run of the scan loop over a list of per-tick inputs (frame raster and
crop hash), returning the final state together with the 0-based indices of
the ticks at which a capture fired. -/
def scanLoopRun (env : Env) (st : ScannerState) :
    List (List ℕ × List ℕ) → ScannerState × List ℕ
  | [] => (st, [])
  | input :: rest =>
    let r := scanLoopTick env input.1 input.2 st
    let r' := scanLoopRun env r.1 rest
    (r'.1, (if r.2 then [0] else []) ++ r'.2.map (· + 1))

/-- The perceptual-hash gate condition of `captureAndAnalyze`: a prior
fingerprint exists and the candidate's similarity against it reaches the
threshold (the gate is not evaluated at all when no prior hash exists). -/
def hashGateSkips (st : ScannerState) (curHash : List ℕ) : Bool :=
  match st.lastSentImageHash with
  | some prev => decide (IMAGE_HASH_THRESHOLD ≤ compareImageHash (some curHash) (some prev))
  | none => false

/-- An RGBA raster presented pixel by pixel, flattened to the channel list
the canvas `ImageData.data` array holds. -/
def flattenRGBA : List (ℕ × ℕ × ℕ × ℕ) → List ℕ
  | [] => []
  | (r, g, b, a) :: ps => r :: g :: b :: a :: flattenRGBA ps

/-- The per-pixel sum of absolute RGB channel differences over paired
pixels, as the specification describes the motion metric. -/
def pixelDiffSum : List ((ℕ × ℕ × ℕ × ℕ) × (ℕ × ℕ × ℕ × ℕ)) → ℕ
  | [] => 0
  | ((r, g, b, _), (r', g', b', _)) :: ps =>
    natAbsDiff r r' + natAbsDiff g g' + natAbsDiff b b' + pixelDiffSum ps

end Scanner

namespace Scanner

open ScanState

/-- A camera environment with the source ready, no client-side daily limit,
and the default duplicate-skip threshold of 2. -/
def envCamera : Env := ⟨Source.camera, true, false, 2⟩

/-- A scanner state in the middle of a single-shot camera scan. -/
def stSingleShotScan : ScannerState := { initialState with scanState := SCANNING }

/-- A scanner state in the middle of a continuous camera scan. -/
def stContinuousScan : ScannerState :=
  { initialState with scanState := SCANNING, isSingleShot := false, scanRafActive := true }

/-- Unfolding `stopScanning` when no deferred cooldown restart is pending:
it forces `IDLE`, re-enables the button, clears every timer and the frame
callback, and resets the stability and duplicate bookkeeping, leaving the
remaining fields (in particular `lastSentImageHash`) untouched. -/
theorem stopScanning_no_restart (env : Env) (st : ScannerState)
    (h : st.shouldRestartAfterCooldown = false) :
    stopScanning env st =
      { st with scanState := IDLE, btnScanDisabled := false, scanRafActive := false,
                retryTimer := none, continuousDelayTimer := none,
                cooldownTimerActive := false, cooldownRemaining := 0,
                lastFrameData := none, stabilityCounter := 0,
                duplicateCount := 0, lastResultFingerprint := none } := by
  simp [stopScanning, stopCooldownCountdown, h, syncUIDisables]

@[simp] theorem transitionTo_lastSentImageHash (st : ScannerState) (t : ScanState) :
    (transitionTo st t).1.lastSentImageHash = st.lastSentImageHash := by
  simp only [transitionTo]; split_ifs <;> rfl

@[simp] theorem transitionTo_duplicateCount (st : ScannerState) (t : ScanState) :
    (transitionTo st t).1.duplicateCount = st.duplicateCount := by
  simp only [transitionTo]; split_ifs <;> rfl

@[simp] theorem transitionTo_lastResultFingerprint (st : ScannerState) (t : ScanState) :
    (transitionTo st t).1.lastResultFingerprint = st.lastResultFingerprint := by
  simp only [transitionTo]; split_ifs <;> rfl

@[simp] theorem transitionTo_isSingleShot (st : ScannerState) (t : ScanState) :
    (transitionTo st t).1.isSingleShot = st.isSingleShot := by
  simp only [transitionTo]; split_ifs <;> rfl

@[simp] theorem transitionTo_currentMode (st : ScannerState) (t : ScanState) :
    (transitionTo st t).1.currentMode = st.currentMode := by
  simp only [transitionTo]; split_ifs <;> rfl

@[simp] theorem transitionTo_shouldRestart (st : ScannerState) (t : ScanState) :
    (transitionTo st t).1.shouldRestartAfterCooldown = st.shouldRestartAfterCooldown := by
  simp only [transitionTo]; split_ifs <;> rfl

@[simp] theorem finallySettle_lastSentImageHash (w p : Bool) (st : ScannerState) :
    (finallySettle w p st).lastSentImageHash = st.lastSentImageHash := by
  simp only [finallySettle]; split_ifs <;> simp

@[simp] theorem finallySettle_duplicateCount (w p : Bool) (st : ScannerState) :
    (finallySettle w p st).duplicateCount = st.duplicateCount := by
  simp only [finallySettle]; split_ifs <;> simp

@[simp] theorem finallySettle_lastResultFingerprint (w p : Bool) (st : ScannerState) :
    (finallySettle w p st).lastResultFingerprint = st.lastResultFingerprint := by
  simp only [finallySettle]; split_ifs <;> simp

@[simp] theorem scheduleRetry_lastSentImageHash (st : ScannerState) (j : ℚ) :
    (scheduleRetry st j).lastSentImageHash = st.lastSentImageHash := by
  simp only [scheduleRetry]; split_ifs <;> rfl

theorem stopCooldown_preserves (env : Env) (st : ScannerState)
    (h : st.shouldRestartAfterCooldown = false) :
    (stopCooldownCountdown env st).lastSentImageHash = st.lastSentImageHash := by
  simp only [stopCooldownCountdown]
  split_ifs <;> simp_all

theorem startCooldown_preserves (env : Env) (s : ℕ) (st : ScannerState)
    (h : st.shouldRestartAfterCooldown = false) :
    (startCooldownCountdown env s st).lastSentImageHash = st.lastSentImageHash := by
  simp [startCooldownCountdown, stopCooldown_preserves env st h]

/-- Unfolding the synchronous capture prefix when every guard passes and the
perceptual-hash gate does not skip: the state commits to `ANALYZING`, the
frame callback is cancelled, and the request is issued. -/
theorem captureSync_proceeds (env : Env) (st : ScannerState) (curHash : List ℕ)
    (h1 : env.sourceReady = true) (h2 : env.apiLimitReached = false)
    (h3 : st.scanState = SCANNING) (h4 : hashGateSkips st curHash = false) :
    captureAndAnalyzeSync env curHash st =
      ({ st with scanState := ANALYZING, btnScanDisabled := true,
                 scanRafActive := false }, true) := by
  cases hls : st.lastSentImageHash with
  | none =>
    simp [captureAndAnalyzeSync, transitionTo, h1, h2, h3, hls, scanTransitions,
      syncUIDisables]
  | some prev =>
    have hsim : ¬ (IMAGE_HASH_THRESHOLD ≤ compareImageHash (some curHash) (some prev)) := by
      have := h4
      simp [hashGateSkips, hls] at this
      exact not_le.mpr this
    simp [captureAndAnalyzeSync, transitionTo, h1, h2, h3, hls, scanTransitions,
      syncUIDisables, hsim]

/-- Unfolding the synchronous capture prefix when the perceptual-hash gate
fires: for a continuous camera scan the stability loop is resumed, otherwise
`stopScanning` runs; in both cases no request is issued. -/
theorem captureSync_skip (env : Env) (st : ScannerState) (curHash prev : List ℕ)
    (h1 : env.sourceReady = true) (h2 : env.apiLimitReached = false)
    (h3 : st.scanState = SCANNING) (h5 : st.shouldRestartAfterCooldown = false)
    (hls : st.lastSentImageHash = some prev)
    (hsim : IMAGE_HASH_THRESHOLD ≤ compareImageHash (some curHash) (some prev)) :
    captureAndAnalyzeSync env curHash st =
      (if st.isSingleShot = false ∧ env.source = Source.camera then
        { st with scanState := SCANNING, btnScanDisabled := false,
                  stabilityCounter := 0, lastFrameData := none, scanRafActive := true }
      else
        { st with scanState := IDLE, btnScanDisabled := false, scanRafActive := false,
                  retryTimer := none, continuousDelayTimer := none,
                  cooldownTimerActive := false, cooldownRemaining := 0,
                  lastFrameData := none, stabilityCounter := 0,
                  duplicateCount := 0, lastResultFingerprint := none }, false) := by
  have hstep : transitionTo st ANALYZING =
      ({ st with scanState := ANALYZING, btnScanDisabled := true }, true) := by
    simp [transitionTo, h3, scanTransitions, syncUIDisables]
  by_cases hc : st.isSingleShot = false ∧ env.source = Source.camera
  · simp only [captureAndAnalyzeSync, h1, h2, h3, hstep]
    simp [hls, hsim, hc.1, hc.2, transitionTo, scanTransitions, syncUIDisables, h3]
  · simp only [captureAndAnalyzeSync, h1, h2, h3, hstep]
    have hcb : (!st.isSingleShot && (env.source = Source.camera : Bool)) = false := by
      rcases Bool.eq_false_or_eq_true st.isSingleShot with hss | hss
      · simp [hss]
      · have hnc : env.source ≠ Source.camera := fun hh => hc ⟨hss, hh⟩
        simp [hss, hnc]
    simp only [hls, hsim, if_pos, hcb]
    rw [stopScanning_no_restart env _ (by simpa using h5)]
    simp [hc]

theorem sumAbsDiff_eq_sum_zipWith (a b : List ℕ) :
    sumAbsDiff a b = (List.zipWith natAbsDiff a b).sum := by
  induction a generalizing b with
  | nil => cases b <;> simp [sumAbsDiff]
  | cons x xs ih => cases b <;> simp [sumAbsDiff, ih]

/-- C1: `transitionTo` is a no-op success on the current state, rejects
targets outside the transition table without mutating anything, and otherwise
commits the target and succeeds; in particular `IDLE → ANALYZING` is rejected
and leaves the state `IDLE`. -/
theorem transitionTo_correct (st : ScannerState) (t : ScanState) :
    (st.scanState = t → transitionTo st t = (st, true)) ∧
    (st.scanState ≠ t → t ∉ scanTransitions st.scanState →
      transitionTo st t = (st, false)) ∧
    (st.scanState ≠ t → t ∈ scanTransitions st.scanState →
      (transitionTo st t).2 = true ∧ (transitionTo st t).1.scanState = t) ∧
    (st.scanState = IDLE →
      transitionTo st ANALYZING = (st, false)) := by
  refine ⟨?_, ?_, ?_, ?_⟩
  · intro h; simp [transitionTo, h]
  · intro h h'; simp [transitionTo, h, h']
  · intro h h'; simp [transitionTo, h, h']
  · intro h
    have h1 : st.scanState ≠ ANALYZING := by simp [h]
    have h2 : ANALYZING ∉ scanTransitions st.scanState := by
      simp [h, scanTransitions]
    simp [transitionTo, h1, h2]

/-- Witness for C1: `transitionTo` evaluated on concrete states, discharging
each hypothesis of `transitionTo_correct`. -/
theorem transitionTo_correct_witness :
    (transitionTo initialState IDLE = (initialState, true)) ∧
    (transitionTo initialState ANALYZING = (initialState, false)) ∧
    ((transitionTo initialState SCANNING).2 = true ∧
      (transitionTo initialState SCANNING).1.scanState = SCANNING) := by
  refine ⟨?_, ?_, ?_⟩
  · exact (transitionTo_correct initialState IDLE).1 rfl
  · exact (transitionTo_correct initialState ANALYZING).2.2.2 rfl
  · exact (transitionTo_correct initialState SCANNING).2.2.1
      (by decide) (by decide)

end Scanner

namespace Scanner

open ScanState

/-- Counterexample to C2: `SCAN_TRANSITIONS` lists `PAUSED_DUPLICATE` among
the targets allowed from `ANALYZING`, so `transitionTo(PAUSED_DUPLICATE)`
invoked with current state `ANALYZING` succeeds and commits, rather than
being rejected. -/
theorem transitionTo_analyzing_pausedDuplicate_not_rejected :
    (transitionTo { initialState with scanState := ANALYZING, btnScanDisabled := true }
        PAUSED_DUPLICATE).2 = true ∧
    (transitionTo { initialState with scanState := ANALYZING, btnScanDisabled := true }
        PAUSED_DUPLICATE).1.scanState = PAUSED_DUPLICATE := by
  decide

/-- C2 (amended): a duplicate-pause request raised while `ANALYZING` is
deferred (pending flag) and committed by the completion path through an
intermediate hop to `SCANNING`: the settling step with a pending duplicate
pause on a streaming scan is exactly the composition of the two
`transitionTo` hops (plus re-arming the frame loop), each hop succeeding —
although the transition table itself also permits `ANALYZING →
PAUSED_DUPLICATE` directly, so a direct `transitionTo` would not be
rejected. -/
theorem analyzing_duplicatePause_via_scanning_hop :
    PAUSED_DUPLICATE ∈ scanTransitions ANALYZING ∧
    (∀ st : ScannerState, st.scanState = ANALYZING →
      (transitionTo st SCANNING).2 = true ∧
      (transitionTo st SCANNING).1.scanState = SCANNING ∧
      (transitionTo (transitionTo st SCANNING).1 PAUSED_DUPLICATE).2 = true ∧
      (transitionTo (transitionTo st SCANNING).1 PAUSED_DUPLICATE).1.scanState
        = PAUSED_DUPLICATE ∧
      finallySettle true true st =
        { (transitionTo (transitionTo st SCANNING).1 PAUSED_DUPLICATE).1 with
            scanRafActive := true }) := by
  refine ⟨by decide, fun st h => ?_⟩
  simp [transitionTo, finallySettle, h, scanTransitions, syncUIDisables]

/-- Witness for the amended C2, at a concrete `ANALYZING` state. -/
theorem analyzing_duplicatePause_via_scanning_hop_witness :
    finallySettle true true { initialState with scanState := ANALYZING } =
      { (transitionTo
          (transitionTo { initialState with scanState := ANALYZING } SCANNING).1
          PAUSED_DUPLICATE).1 with scanRafActive := true } :=
  (analyzing_duplicatePause_via_scanning_hop.2
    { initialState with scanState := ANALYZING } rfl).2.2.2.2

/-- A state mid-cooldown after the user pressed start during the cooldown
(the toggle handler records the press in `shouldRestartAfterCooldown`). -/
def stCooldownDeferredStart : ScannerState :=
  { initialState with scanState := COOLDOWN, btnScanDisabled := true,
                      cooldownTimerActive := true, cooldownRemaining := 7,
                      shouldRestartAfterCooldown := true }

/-- Failing input for C3: a user pressed start during a cooldown
(`shouldRestartAfterCooldown` set), and `stopScanning` is then invoked (the
file-picker and tab-visibility handlers call it from any non-`IDLE` state).
The embedded restart in `stopCooldownCountdown` immediately calls
`startScanning`, so the first call ends in `SCANNING` with a live
animation-frame callback — not `IDLE` with zero callbacks — while a second
call does end in `IDLE`: `stopScanning` is neither unconditional nor
idempotent on this state. -/
theorem stopScanning_restartFlag_violation :
    (stopScanning envCamera stCooldownDeferredStart).scanState = SCANNING ∧
    (stopScanning envCamera stCooldownDeferredStart).scanRafActive = true ∧
    (stopScanning envCamera
      (stopScanning envCamera stCooldownDeferredStart)).scanState = IDLE := by
  decide

/-- The HTTP 429 body of a day-scoped quota rejection. -/
def dailyLimitResponse : ApiResponse :=
  { ok := false, data := [], labelDetected := false, labelReason := "",
    webBestGuess := none, limitType := some "daily", retryAfter := none }

/-- Failing input for C9: a day-scoped quota rejection (HTTP 429 with
`limit_type` "daily") during a camera scan.  The handler disables the scan
button and starts no countdown, but the `finally` block still settles the
state out of `ANALYZING`, and the `syncUI` call of that transition re-enables
the button: after a single-shot scan the state is `IDLE` with the button
enabled again; after a continuous scan the state is `SCANNING` with the
inter-scan delay timer armed, so scanning even continues. -/
theorem dailyQuota_disable_undone :
    ((captureAndAnalyze envCamera stSingleShotScan [0]
        (FetchResult.success 429 dailyLimitResponse) 1).1.scanState = IDLE ∧
     (captureAndAnalyze envCamera stSingleShotScan [0]
        (FetchResult.success 429 dailyLimitResponse) 1).1.btnScanDisabled = false) ∧
    ((captureAndAnalyze envCamera stContinuousScan [0]
        (FetchResult.success 429 dailyLimitResponse) 1).1.scanState = SCANNING ∧
     (captureAndAnalyze envCamera stContinuousScan [0]
        (FetchResult.success 429 dailyLimitResponse) 1).1.continuousDelayTimer
        = some CONTINUOUS_SCAN_INTERVAL_MS ∧
     (captureAndAnalyze envCamera stContinuousScan [0]
        (FetchResult.success 429 dailyLimitResponse) 1).1.btnScanDisabled = false) := by
  decide

/-- A successful list-mode response whose single label carries a
confidence suffix without a dash. -/
def noDashResponse : ApiResponse :=
  { ok := true, data := [{ label := "Apple 95%" }], labelDetected := false,
    labelReason := "", webBestGuess := none, limitType := none, retryAfter := none }

/-- Counterexample to C7: the source pattern `\s*[-–]\s*\d+%\s*$` requires
the dash, so a label whose trailing "95%" is not preceded by a dash is kept
whole, while the claim's dash-optional stripping would remove it — the two
fingerprints differ on this input. -/
theorem fingerprint_dash_not_optional :
    computeResultFingerprint Mode.text noDashResponse = some "n1:apple 95%" ∧
    computeResultFingerprintSpec Mode.text noDashResponse = some "n1:apple" ∧
    computeResultFingerprint Mode.text noDashResponse
      ≠ computeResultFingerprintSpec Mode.text noDashResponse := by
  decide

end Scanner

namespace Scanner

open ScanState

/-- C10: starting a scan resets the last-sent fingerprint to null, the
similarity against a missing or length-mismatched hash is 0, and a capture
entered with no prior fingerprint always issues the request — the gate never
suppresses the first submission of a scan session. -/
theorem firstCapture_never_suppressed :
    (∀ (env : Env) (st : ScannerState),
      env.apiLimitReached = false → st.scanState = IDLE →
      (startScanning env st).lastSentImageHash = none ∧
      (startScanning env st).scanState = SCANNING) ∧
    (∀ b : Option (List ℕ), compareImageHash none b = 0 ∧ compareImageHash b none = 0) ∧
    (∀ a b : List ℕ, a.length ≠ b.length → compareImageHash (some a) (some b) = 0) ∧
    (∀ (env : Env) (st : ScannerState) (curHash : List ℕ),
      env.sourceReady = true → env.apiLimitReached = false →
      st.scanState = SCANNING → st.lastSentImageHash = none →
      (captureAndAnalyzeSync env curHash st).2 = true) := by
  refine ⟨?_, ?_, ?_, ?_⟩
  · intro env st hlim hidle
    have : (transitionTo st SCANNING).2 = true ∧
        (transitionTo st SCANNING).1 =
          { st with scanState := SCANNING, btnScanDisabled := false } := by
      simp [transitionTo, hidle, scanTransitions, syncUIDisables]
    by_cases hsrc : env.source = Source.image <;>
      simp [startScanning, hlim, this.1, this.2, hsrc]
  · intro b
    cases b <;> simp [compareImageHash]
  · intro a b h
    simp [compareImageHash, h]
  · intro env st curHash h1 h2 h3 h4
    have hgate : hashGateSkips st curHash = false := by simp [hashGateSkips, h4]
    rw [captureSync_proceeds env st curHash h1 h2 h3 hgate]

/-- Witness for C10 at concrete inputs. -/
theorem firstCapture_never_suppressed_witness :
    ((startScanning envCamera initialState).lastSentImageHash = none ∧
     (startScanning envCamera initialState).scanState = SCANNING) ∧
    compareImageHash none (some [1, 2]) = 0 ∧
    compareImageHash (some [1]) (some [1, 2]) = 0 ∧
    (captureAndAnalyzeSync envCamera [5] stSingleShotScan).2 = true := by
  refine ⟨?_, ?_, ?_, ?_⟩
  · exact firstCapture_never_suppressed.1 envCamera initialState rfl rfl
  · exact (firstCapture_never_suppressed.2.1 (some [1, 2])).1
  · exact firstCapture_never_suppressed.2.2.1 [1] [1, 2] (by decide)
  · exact firstCapture_never_suppressed.2.2.2 envCamera stSingleShotScan [5]
      rfl rfl rfl rfl

/-- C8: a transport-level failure during a camera-driven scan moves the
state to `PAUSED_ERROR`, increments the consecutive-error counter, and
schedules resumption after `min(base * 2^(n-1) * jitter, maxDelay)` with `n`
the post-increment count; with base 5000 ms and max 60000 ms the scheduled
delay never exceeds 60000 ms, and after the third consecutive failure the
unjittered candidate is 20000 ms and the jittered delay lies in
[15000 ms, 25000 ms]. -/
theorem retryBackoff_delay (env : Env) (st : ScannerState) (curHash : List ℕ) (j : ℚ)
    (hsrc : env.source = Source.camera) (h1 : env.sourceReady = true)
    (h2 : env.apiLimitReached = false) (h3 : st.scanState = SCANNING)
    (h4 : hashGateSkips st curHash = false)
    (hj0 : 3 / 4 ≤ j) (hj1 : j ≤ 5 / 4) :
    (captureAndAnalyze env st curHash FetchResult.netError j).1.scanState = PAUSED_ERROR ∧
    (captureAndAnalyze env st curHash FetchResult.netError j).1.consecutiveErrorCount
      = st.consecutiveErrorCount + 1 ∧
    (captureAndAnalyze env st curHash FetchResult.netError j).1.retryTimer
      = some (min (RETRY_BASE_DELAY_MS * 2 ^ st.consecutiveErrorCount * j)
          RETRY_MAX_DELAY_MS) ∧
    (∀ d : ℚ, (captureAndAnalyze env st curHash FetchResult.netError j).1.retryTimer
      = some d → d ≤ 60000) ∧
    (st.consecutiveErrorCount = 2 →
      RETRY_BASE_DELAY_MS * 2 ^ st.consecutiveErrorCount = 20000 ∧
      (captureAndAnalyze env st curHash FetchResult.netError j).1.retryTimer
        = some (20000 * j) ∧
      15000 ≤ 20000 * j ∧ 20000 * j ≤ 25000) := by
  have hmain : captureAndAnalyze env st curHash FetchResult.netError j =
      ({ st with scanState := PAUSED_ERROR, btnScanDisabled := false,
                 scanRafActive := false,
                 consecutiveErrorCount := st.consecutiveErrorCount + 1,
                 retryTimer := some (min (RETRY_BASE_DELAY_MS *
                   2 ^ st.consecutiveErrorCount * j) RETRY_MAX_DELAY_MS) }, true) := by
    simp only [captureAndAnalyze, captureSync_proceeds env st curHash h1 h2 h3 h4]
    simp [handleAnalyzeResponse, hsrc, transitionTo, scanTransitions, syncUIDisables,
      scheduleRetry, finallySettle]
  refine ⟨by rw [hmain], by rw [hmain], by rw [hmain], ?_, ?_⟩
  · intro d hd
    rw [hmain] at hd
    simp at hd
    rw [← hd]
    exact min_le_right _ _
  · intro hc
    have hpow : RETRY_BASE_DELAY_MS * 2 ^ st.consecutiveErrorCount = 20000 := by
      rw [hc]; norm_num [RETRY_BASE_DELAY_MS]
    have hle : 20000 * j ≤ 25000 := by nlinarith
    have hge : 15000 ≤ 20000 * j := by nlinarith
    have hmin : min (RETRY_BASE_DELAY_MS * 2 ^ st.consecutiveErrorCount * j)
        RETRY_MAX_DELAY_MS = 20000 * j := by
      rw [hpow]
      exact min_eq_left (by rw [RETRY_MAX_DELAY_MS]; nlinarith)
    refine ⟨hpow, ?_, hge, hle⟩
    rw [hmain]
    simp [hmin]

/-- A continuous camera-scan state that has already seen two consecutive
transport failures. -/
def stErrorTwice : ScannerState := { stContinuousScan with consecutiveErrorCount := 2 }

/-- Witness for C8 at a concrete third failure with jitter 1. -/
theorem retryBackoff_delay_witness :
    (captureAndAnalyze envCamera stErrorTwice [0] FetchResult.netError 1).1.scanState
      = PAUSED_ERROR ∧
    (captureAndAnalyze envCamera stErrorTwice [0] FetchResult.netError 1).1.retryTimer
      = some (20000 * 1) := by
  have h := retryBackoff_delay envCamera stErrorTwice [0] 1 rfl rfl rfl rfl
    (by decide) (by norm_num) (by norm_num)
  exact ⟨h.1, (h.2.2.2.2 rfl).2.1⟩

end Scanner

namespace Scanner

open ScanState

/-- C5: the similarity of a 64-cell hash against the previous one is
`1 - (sum of absolute cell differences) / (64 * 255)`; when the similarity
reaches the 0.95 threshold, the submission is aborted — a continuous camera
scan resumes `SCANNING`, a single-shot or non-camera source stops to `IDLE`
— and a uniform per-cell absolute delta of 5 yields similarity 50/51
(about 0.980), above the threshold, so the submission is skipped. -/
theorem imageHash_similarity_gate :
    (∀ a b : List ℕ, a.length = 64 → b.length = 64 →
      compareImageHash (some a) (some b)
        = 1 - (sumAbsDiff a b : ℚ) / ((64 : ℚ) * 255)) ∧
    (∀ (env : Env) (st : ScannerState) (curHash prev : List ℕ)
       (fetch : FetchResult) (j : ℚ),
      env.sourceReady = true → env.apiLimitReached = false →
      st.scanState = SCANNING → st.shouldRestartAfterCooldown = false →
      st.lastSentImageHash = some prev →
      IMAGE_HASH_THRESHOLD ≤ compareImageHash (some curHash) (some prev) →
      ((captureAndAnalyze env st curHash fetch j).2 = false ∧
       (st.isSingleShot = false → env.source = Source.camera →
         (captureAndAnalyze env st curHash fetch j).1.scanState = SCANNING) ∧
       (st.isSingleShot = true ∨ env.source ≠ Source.camera →
         (captureAndAnalyze env st curHash fetch j).1.scanState = IDLE))) ∧
    (∀ a b : List ℕ, a.length = 64 → b.length = 64 →
      List.zipWith natAbsDiff a b = List.replicate 64 5 →
      (compareImageHash (some a) (some b) = 50 / 51 ∧
       IMAGE_HASH_THRESHOLD ≤ compareImageHash (some a) (some b) ∧
       |compareImageHash (some a) (some b) - 98 / 100| < 1 / 1000)) := by
  refine ⟨?_, ?_, ?_⟩
  · intro a b ha hb
    simp [compareImageHash, ha, hb]
  · intro env st curHash prev fetch j h1 h2 h3 h5 hls hsim
    have hsk := captureSync_skip env st curHash prev h1 h2 h3 h5 hls hsim
    refine ⟨?_, ?_, ?_⟩
    · simp [captureAndAnalyze, hsk]
    · intro hss hsrc
      simp [captureAndAnalyze, hsk, hss, hsrc]
    · intro hor
      have hc : ¬ (st.isSingleShot = false ∧ env.source = Source.camera) := by
        rcases hor with h | h
        · intro hx; rw [h] at hx; exact absurd hx.1 (by simp)
        · intro hx; exact h hx.2
      simp [captureAndAnalyze, hsk, hc]
  · intro a b ha hb hz
    have hsum : sumAbsDiff a b = 320 := by
      rw [sumAbsDiff_eq_sum_zipWith, hz]
      simp [List.sum_replicate]
    have hval : compareImageHash (some a) (some b) = 50 / 51 := by
      simp [compareImageHash, ha, hb, hsum]
      norm_num
    refine ⟨hval, ?_, ?_⟩
    · rw [hval, IMAGE_HASH_THRESHOLD]; norm_num
    · rw [hval]
      rw [abs_sub_lt_iff]
      norm_num

/-- A continuous camera-scan state whose last sent hash is uniformly 5. -/
def stSkipContinuous : ScannerState :=
  { stContinuousScan with lastSentImageHash := some (List.replicate 64 5) }

/-- A single-shot camera-scan state whose last sent hash is uniformly 5. -/
def stSkipSingle : ScannerState :=
  { stSingleShotScan with lastSentImageHash := some (List.replicate 64 5) }

/-- Witness for C5: hashes at a uniform per-cell delta of 5 are similar
enough to skip, resuming a continuous scan and stopping a single-shot one. -/
theorem imageHash_similarity_gate_witness :
    compareImageHash (some (List.replicate 64 10)) (some (List.replicate 64 5))
      = 1 - (sumAbsDiff (List.replicate 64 10) (List.replicate 64 5) : ℚ)
          / ((64 : ℚ) * 255) ∧
    compareImageHash (some (List.replicate 64 10)) (some (List.replicate 64 5))
      = 50 / 51 ∧
    (captureAndAnalyze envCamera stSkipContinuous (List.replicate 64 10)
      FetchResult.netError 1).2 = false ∧
    (captureAndAnalyze envCamera stSkipContinuous (List.replicate 64 10)
      FetchResult.netError 1).1.scanState = SCANNING ∧
    (captureAndAnalyze envCamera stSkipSingle (List.replicate 64 10)
      FetchResult.netError 1).1.scanState = IDLE := by
  have hlen1 : (List.replicate 64 (10 : ℕ)).length = 64 := by simp
  have hlen2 : (List.replicate 64 (5 : ℕ)).length = 64 := by simp
  have hz : List.zipWith natAbsDiff (List.replicate 64 10) (List.replicate 64 5)
      = List.replicate 64 5 := by decide
  have hsim := (imageHash_similarity_gate.2.2 _ _ hlen1 hlen2 hz).2.1
  refine ⟨imageHash_similarity_gate.1 _ _ hlen1 hlen2, ?_, ?_, ?_, ?_⟩
  · exact (imageHash_similarity_gate.2.2 _ _ hlen1 hlen2 hz).1
  · exact (imageHash_similarity_gate.2.1 envCamera stSkipContinuous
      (List.replicate 64 10) (List.replicate 64 5) FetchResult.netError 1
      rfl rfl rfl rfl rfl hsim).1
  · exact (imageHash_similarity_gate.2.1 envCamera stSkipContinuous
      (List.replicate 64 10) (List.replicate 64 5) FetchResult.netError 1
      rfl rfl rfl rfl rfl hsim).2.1 rfl rfl
  · exact (imageHash_similarity_gate.2.1 envCamera stSkipSingle
      (List.replicate 64 10) (List.replicate 64 5) FetchResult.netError 1
      rfl rfl rfl rfl rfl hsim).2.2 (Or.inl rfl)

end Scanner

namespace Scanner

open ScanState

/-- C6: the stored last-sent visual fingerprint is replaced by the candidate
crop's hash exactly when the submission succeeds (HTTP status not 429 and
body `ok:true`); a hash-gate skip, a quota rejection, an application-level
failure, a malformed body, and every transport error all leave it unchanged,
so a failed submission remains retryable against the same visual content. -/
theorem lastSentHash_replaced_only_on_success (env : Env) (st : ScannerState)
    (curHash : List ℕ) (fetch : FetchResult) (j : ℚ)
    (h1 : env.sourceReady = true) (h2 : env.apiLimitReached = false)
    (h3 : st.scanState = SCANNING) (h5 : st.shouldRestartAfterCooldown = false) :
    (captureAndAnalyze env st curHash fetch j).1.lastSentImageHash =
      (if hashGateSkips st curHash then st.lastSentImageHash
       else match fetch with
         | FetchResult.success status resp =>
             if status = 429 ∨ resp.ok = false then st.lastSentImageHash
             else some curHash
         | _ => st.lastSentImageHash) := by
  by_cases hg : hashGateSkips st curHash = true
  · obtain ⟨prev, hls⟩ : ∃ prev, st.lastSentImageHash = some prev := by
      cases hq : st.lastSentImageHash with
      | none => rw [hashGateSkips, hq] at hg; simp at hg
      | some p => exact ⟨p, rfl⟩
    have hsim : IMAGE_HASH_THRESHOLD ≤ compareImageHash (some curHash) (some prev) := by
      rw [hashGateSkips, hls] at hg
      simpa using hg
    have hsk := captureSync_skip env st curHash prev h1 h2 h3 h5 hls hsim
    simp only [captureAndAnalyze, hsk, hg, if_true]
    split_ifs <;> simp_all
  · have hgs : hashGateSkips st curHash = false := by simpa using hg
    simp only [captureAndAnalyze, captureSync_proceeds env st curHash h1 h2 h3 hgs, hgs]
    cases fetch with
    | success status resp =>
      by_cases h429 : status = 429
      · by_cases hdaily : resp.limitType = some "daily"
        · simp [handleAnalyzeResponse, h429, hdaily]
        · simp only [handleAnalyzeResponse, h429, if_true, reduceIte, hdaily,
            finallySettle_lastSentImageHash]
          rw [startCooldown_preserves env _ _ (by simp [h5])]
          simp
      · by_cases hok : resp.ok = true
        · simp [handleAnalyzeResponse, h429, hok]
          split_ifs <;> simp
        · have hnok : resp.ok = false := by simpa using hok
          simp [handleAnalyzeResponse, h429, hnok]
    | jsonError status => simp [handleAnalyzeResponse]
    | abortError =>
      by_cases hsrc : env.source = Source.camera <;>
        simp [handleAnalyzeResponse, hsrc]
    | retriesExhausted =>
      by_cases hsrc : env.source = Source.camera <;>
        simp [handleAnalyzeResponse, hsrc]
    | netError =>
      by_cases hsrc : env.source = Source.camera <;>
        simp [handleAnalyzeResponse, hsrc]

/-- A successful one-label response used by witnesses. -/
def oneLabelResponse : ApiResponse :=
  { ok := true, data := [{ label := "Apple - 95%" }], labelDetected := false,
    labelReason := "", webBestGuess := none, limitType := none, retryAfter := none }

/-- An application-level failure body (`ok:false`, HTTP 500). -/
def failedResponse : ApiResponse :=
  { ok := false, data := [], labelDetected := false, labelReason := "",
    webBestGuess := none, limitType := none, retryAfter := none }

/-- Witness for C6: the hash is stored on a success, kept on a failure and
on a transport error. -/
theorem lastSentHash_replaced_only_on_success_witness :
    (captureAndAnalyze envCamera stContinuousScan [7]
      (FetchResult.success 200 oneLabelResponse) 1).1.lastSentImageHash = some [7] ∧
    (captureAndAnalyze envCamera stContinuousScan [7]
      (FetchResult.success 500 failedResponse) 1).1.lastSentImageHash = none ∧
    (captureAndAnalyze envCamera stContinuousScan [7]
      FetchResult.netError 1).1.lastSentImageHash = none := by
  refine ⟨?_, ?_, ?_⟩
  · rw [lastSentHash_replaced_only_on_success envCamera stContinuousScan [7]
      (FetchResult.success 200 oneLabelResponse) 1 rfl rfl rfl rfl]
    decide
  · rw [lastSentHash_replaced_only_on_success envCamera stContinuousScan [7]
      (FetchResult.success 500 failedResponse) 1 rfl rfl rfl rfl]
    decide
  · rw [lastSentHash_replaced_only_on_success envCamera stContinuousScan [7]
      FetchResult.netError 1 rfl rfl rfl rfl]
    decide

end Scanner

namespace Scanner

open ScanState

/-- A successful list-mode response with two labels, one carrying a dashed
confidence suffix. -/
def twoLabelResponse : ApiResponse :=
  { ok := true, data := [{ label := "Banana - 80%" }, { label := "Apple" }],
    labelDetected := false, labelReason := "", webBestGuess := none,
    limitType := none, retryAfter := none }

/-- A successful list-mode response with an empty data array. -/
def emptyDataResponse : ApiResponse :=
  { ok := true, data := [], labelDetected := false, labelReason := "",
    webBestGuess := none, limitType := none, retryAfter := none }

/-- C7 (amended): the fingerprint of a list-mode result strips a trailing
confidence suffix whose dash is required (hyphen-minus or en-dash) rather
than optional, lowercases, sorts and prefixes the count (null for an empty
list); and with duplicate-skip threshold 2, a successful camera-scan result
whose non-null fingerprint equals the stored one for the second consecutive
time moves the scan to `PAUSED_DUPLICATE`, while a result whose fingerprint
differs resets the repeat counter to 1 (0 when the fingerprint is null). -/
theorem resultFingerprint_duplicate_dynamics :
    (stripConfidence "Apple - 95%" = "Apple" ∧
     stripConfidence "Apple – 7%" = "Apple" ∧
     stripConfidence "Apple 95%" = "Apple 95%") ∧
    (computeResultFingerprint Mode.object twoLabelResponse = some "n2:apple|banana") ∧
    (∀ (mode : Mode) (r : ApiResponse), mode ≠ Mode.web → mode ≠ Mode.label →
      r.data = [] → computeResultFingerprint mode r = none) ∧
    (∀ (env : Env) (st : ScannerState) (curHash : List ℕ) (status : ℕ)
       (resp : ApiResponse) (j : ℚ),
      env.sourceReady = true → env.apiLimitReached = false →
      env.source = Source.camera → env.dupSkipCount = 2 →
      st.scanState = SCANNING → hashGateSkips st curHash = false →
      status ≠ 429 → resp.ok = true →
      ((∀ f : String, computeResultFingerprint st.currentMode resp = some f →
        (st.lastResultFingerprint = some f → 1 ≤ st.duplicateCount →
          (captureAndAnalyze env st curHash (FetchResult.success status resp) j).1.scanState
            = PAUSED_DUPLICATE ∧
          (captureAndAnalyze env st curHash
            (FetchResult.success status resp) j).1.duplicateCount
            = st.duplicateCount + 1) ∧
        (st.lastResultFingerprint ≠ some f →
          (captureAndAnalyze env st curHash
            (FetchResult.success status resp) j).1.duplicateCount = 1 ∧
          (captureAndAnalyze env st curHash
            (FetchResult.success status resp) j).1.lastResultFingerprint
            = some f)) ∧
       (computeResultFingerprint st.currentMode resp = none →
        (captureAndAnalyze env st curHash
          (FetchResult.success status resp) j).1.duplicateCount = 0 ∧
        (captureAndAnalyze env st curHash
          (FetchResult.success status resp) j).1.lastResultFingerprint
          = st.lastResultFingerprint))) := by
  refine ⟨⟨by decide, by decide, by decide⟩, by decide, ?_, ?_⟩
  · intro mode r hw hl hdata
    cases mode <;> simp_all [computeResultFingerprint]
  · intro env st curHash status resp j h1 h2 hsrc hthr h3 h4 h429 hok
    have hsync := captureSync_proceeds env st curHash h1 h2 h3 h4
    refine ⟨fun f hf => ⟨fun heq hdup => ?_, fun hne => ?_⟩, fun hf => ?_⟩
    · have hd2 : env.dupSkipCount ≤ st.duplicateCount + 1 := by omega
      simp only [captureAndAnalyze, hsync]
      simp [handleAnalyzeResponse, h429, hok, hf, heq, hsrc, hd2, finallySettle,
        transitionTo, scanTransitions, syncUIDisables]
    · simp only [captureAndAnalyze, hsync]
      have hne' : ¬ (some f == st.lastResultFingerprint) = true := by
        simp
        intro hx
        exact absurd hx.symm hne
      simp [handleAnalyzeResponse, h429, hok, hf, hne', hsrc]
    · simp only [captureAndAnalyze, hsync]
      simp [handleAnalyzeResponse, h429, hok, hf, hsrc]

/-- A continuous camera scan that has already stored the fingerprint of
`twoLabelResponse` once. -/
def stSeenOnce : ScannerState :=
  { stContinuousScan with currentMode := Mode.object, duplicateCount := 1,
                          lastResultFingerprint := some "n2:apple|banana" }

/-- Witness for the amended C7: a second identical result pauses the scan,
a first differing result stores count 1, and an empty result keeps count 0. -/
theorem resultFingerprint_duplicate_dynamics_witness :
    (captureAndAnalyze envCamera stSeenOnce [3]
      (FetchResult.success 200 twoLabelResponse) 1).1.scanState = PAUSED_DUPLICATE ∧
    (captureAndAnalyze envCamera stSeenOnce [3]
      (FetchResult.success 200 twoLabelResponse) 1).1.duplicateCount = 2 ∧
    (captureAndAnalyze envCamera stContinuousScan [3]
      (FetchResult.success 200 twoLabelResponse) 1).1.duplicateCount = 1 ∧
    (captureAndAnalyze envCamera stContinuousScan [3]
      (FetchResult.success 200 emptyDataResponse) 1).1.duplicateCount = 0 ∧
    computeResultFingerprint Mode.text emptyDataResponse = none := by
  have hmain := resultFingerprint_duplicate_dynamics.2.2.2 envCamera stSeenOnce [3]
    200 twoLabelResponse 1 rfl rfl rfl rfl rfl (by decide) (by decide) rfl
  have hdiff := resultFingerprint_duplicate_dynamics.2.2.2 envCamera stContinuousScan
    [3] 200 twoLabelResponse 1 rfl rfl rfl rfl rfl (by decide) (by decide) rfl
  have hnull := resultFingerprint_duplicate_dynamics.2.2.2 envCamera stContinuousScan
    [3] 200 emptyDataResponse 1 rfl rfl rfl rfl rfl (by decide) (by decide) rfl
  have hempty := resultFingerprint_duplicate_dynamics.2.2.1 Mode.text
    emptyDataResponse (by decide) (by decide) rfl
  refine ⟨?_, ?_, ?_, ?_, hempty⟩
  · exact ((hmain.1 "n2:apple|banana" (by decide)).1 (by decide) (by decide)).1
  · exact ((hmain.1 "n2:apple|banana" (by decide)).1 (by decide) (by decide)).2
  · exact ((hdiff.1 "n2:apple|banana" (by decide)).2 (by decide)).1
  · exact (hnull.2 (by decide)).1

end Scanner

namespace Scanner

open ScanState

@[simp] theorem transitionTo_stabilityCounter (st : ScannerState) (t : ScanState) :
    (transitionTo st t).1.stabilityCounter = st.stabilityCounter := by
  simp only [transitionTo]; split_ifs <;> rfl

theorem frameDiff_flatten (ps qs : List (ℕ × ℕ × ℕ × ℕ)) :
    frameDiff (flattenRGBA ps) (flattenRGBA qs) = pixelDiffSum (ps.zip qs) := by
  induction ps generalizing qs with
  | nil => cases qs <;> simp [flattenRGBA, frameDiff, pixelDiffSum]
  | cons p ps ih =>
    cases qs with
    | nil =>
      obtain ⟨r, g, b, a⟩ := p
      simp [flattenRGBA, frameDiff, pixelDiffSum]
    | cons q qs =>
      obtain ⟨r, g, b, a⟩ := p
      obtain ⟨r', g', b', a'⟩ := q
      simp [flattenRGBA, frameDiff, pixelDiffSum, ih, List.zip]

theorem scanTick_stable_step (env : Env) (st : ScannerState) (fr hs prev : List ℕ)
    (h1 : env.sourceReady = true) (h2 : env.apiLimitReached = false)
    (h3 : st.scanState = SCANNING) (hl : st.lastFrameData = some prev)
    (hd : avgDiff fr prev < MOTION_THRESHOLD) (hns : st.lastSentImageHash = none) :
    scanLoopTick env fr hs st =
      if st.stabilityCounter + 1 < STABILITY_THRESHOLD then
        ({ st with scanFrameCount := st.scanFrameCount + 1,
                   stabilityCounter := st.stabilityCounter + 1,
                   lastFrameData := some fr, scanRafActive := true }, false)
      else
        ({ st with scanFrameCount := st.scanFrameCount + 1,
                   scanState := ANALYZING, btnScanDisabled := true,
                   stabilityCounter := 0, lastFrameData := some fr,
                   scanRafActive := true }, true) := by
  obtain ⟨s1, s2, s3, s4, s5, s6, s7, s8, s9, s10, s11, s12, s13, s14, s15, s16,
    s17, s18⟩ := st
  simp only at h3 hl hns
  subst h3
  subst hl
  subst hns
  by_cases hc : s14 + 1 < STABILITY_THRESHOLD
  · have hc' : ¬ STABILITY_THRESHOLD ≤ s14 + 1 := by omega
    simp [scanLoopTick, checkStabilityAndCapture, h1, hd, hc, hc']
  · have hc' : STABILITY_THRESHOLD ≤ s14 + 1 := by omega
    simp [scanLoopTick, checkStabilityAndCapture, captureAndAnalyzeSync, h1, h2,
      hd, hc, hc', hashGateSkips, transitionTo, scanTransitions, syncUIDisables]

theorem scanLoopRun_absorb (env : Env) (inputs : List (List ℕ × List ℕ))
    (st : ScannerState) (h : st.scanState = ANALYZING) :
    (scanLoopRun env st inputs).2 = [] ∧
    (scanLoopRun env st inputs).1.scanState = ANALYZING ∧
    (scanLoopRun env st inputs).1.stabilityCounter = st.stabilityCounter := by
  induction inputs generalizing st with
  | nil => simp [scanLoopRun, h]
  | cons input rest ih =>
    have hguard : scanLoopTick env input.1 input.2 st =
        ({ st with scanRafActive := false }, false) := by
      simp [scanLoopTick, h]
    simp only [scanLoopRun, hguard]
    have := ih { st with scanRafActive := false } (by simpa using h)
    simp [this.1, this.2.1, this.2.2]

end Scanner

namespace Scanner

open ScanState

theorem scanLoopRun_stable (env : Env) (inputs : List (List ℕ × List ℕ)) :
    ∀ (st : ScannerState) (prev : List ℕ),
    env.sourceReady = true → env.apiLimitReached = false →
    st.scanState = SCANNING → st.lastFrameData = some prev →
    st.lastSentImageHash = none →
    List.Chain' (fun a b => avgDiff b a < MOTION_THRESHOLD)
      (prev :: inputs.map Prod.fst) →
    st.stabilityCounter < STABILITY_THRESHOLD →
    STABILITY_THRESHOLD ≤ st.stabilityCounter + inputs.length →
    (scanLoopRun env st inputs).2 = [STABILITY_THRESHOLD - 1 - st.stabilityCounter] ∧
    (scanLoopRun env st inputs).1.scanState = ANALYZING ∧
    (scanLoopRun env st inputs).1.stabilityCounter = 0 := by
  induction inputs with
  | nil =>
    intro st prev _ _ _ _ _ _ hlt hge
    simp at hge
    omega
  | cons input rest ih =>
    intro st prev h1 h2 h3 hl hns hchain hlt hge
    obtain ⟨fr, hs⟩ := input
    rw [List.map_cons, List.chain'_cons] at hchain
    obtain ⟨hd, hch⟩ := hchain
    have hstep := scanTick_stable_step env st fr hs prev h1 h2 h3 hl hd hns
    by_cases hc : st.stabilityCounter + 1 < STABILITY_THRESHOLD
    · rw [if_pos hc] at hstep
      simp only [scanLoopRun, hstep]
      have hrec := ih
        { st with scanFrameCount := st.scanFrameCount + 1,
                  stabilityCounter := st.stabilityCounter + 1,
                  lastFrameData := some fr, scanRafActive := true } fr
        h1 h2 (by simpa using h3) rfl (by simpa using hns) hch
        (by simpa using hc) (by simp; simp at hge; omega)
      obtain ⟨e1, e2, e3⟩ := hrec
      refine ⟨?_, by simpa using e2, by simpa using e3⟩
      simp only [e1]
      simp
      omega
    · rw [if_neg hc] at hstep
      simp only [scanLoopRun, hstep]
      have habs := scanLoopRun_absorb env rest
        { st with scanFrameCount := st.scanFrameCount + 1,
                  scanState := ANALYZING, btnScanDisabled := true,
                  stabilityCounter := 0, lastFrameData := some fr,
                  scanRafActive := true } (by simp)
      refine ⟨?_, by simpa using habs.2.1, ?_⟩
      · simp only [habs.1]
        simp
        omega
      · have := habs.2.2
        simpa using this

end Scanner

namespace Scanner

open ScanState

/-- C4: `avgDiff` is the per-pixel sum of absolute RGB channel differences
against the previous raster divided by the pixel count 64 * 48; a pair with
`avgDiff` at or above the motion threshold resets the stability counter to
0; and a run of at least 20 consecutive stable pairs starting from counter 0
in `SCANNING` fires exactly one capture, at the 20th pair, with the counter
reset to 0 immediately after (the capture commits `ANALYZING`, which the
loop guard then ignores for the rest of the run). -/
theorem stability_detector_correct :
    (∀ ps qs : List (ℕ × ℕ × ℕ × ℕ),
      avgDiff (flattenRGBA ps) (flattenRGBA qs)
        = (pixelDiffSum (ps.zip qs) : ℚ)
          / ((MOTION_CANVAS_WIDTH : ℚ) * (MOTION_CANVAS_HEIGHT : ℚ))) ∧
    (∀ (env : Env) (st : ScannerState) (fr hs prev : List ℕ),
      env.sourceReady = true → st.lastFrameData = some prev →
      MOTION_THRESHOLD ≤ avgDiff fr prev →
      (checkStabilityAndCapture env fr hs st).1.stabilityCounter = 0) ∧
    (∀ (env : Env) (st : ScannerState) (inputs : List (List ℕ × List ℕ))
       (prev : List ℕ),
      env.sourceReady = true → env.apiLimitReached = false →
      st.scanState = SCANNING → st.stabilityCounter = 0 →
      st.lastFrameData = some prev → st.lastSentImageHash = none →
      List.Chain' (fun a b => avgDiff b a < MOTION_THRESHOLD)
        (prev :: inputs.map Prod.fst) →
      STABILITY_THRESHOLD ≤ inputs.length →
      ((scanLoopRun env st inputs).2 = [19] ∧
       (scanLoopRun env st (inputs.take STABILITY_THRESHOLD)).2 = [19] ∧
       (scanLoopRun env st (inputs.take STABILITY_THRESHOLD)).1.scanState
         = ANALYZING ∧
       (scanLoopRun env st (inputs.take STABILITY_THRESHOLD)).1.stabilityCounter
         = 0)) := by
  refine ⟨?_, ?_, ?_⟩
  · intro ps qs
    simp [avgDiff, frameDiff_flatten]
  · intro env st fr hs prev h1 hl hmot
    have hnlt : ¬ avgDiff fr prev < MOTION_THRESHOLD := not_lt.mpr hmot
    simp only [checkStabilityAndCapture, h1, hl]
    simp [hnlt]
    split_ifs <;> simp
  · intro env st inputs prev h1 h2 h3 hc0 hl hns hchain hlen
    have hfull := scanLoopRun_stable env inputs st prev h1 h2 h3 hl hns hchain
      (by rw [hc0]; decide) (by omega)
    have hchT : List.Chain' (fun a b => avgDiff b a < MOTION_THRESHOLD)
        (prev :: (inputs.take STABILITY_THRESHOLD).map Prod.fst) := by
      have heq : prev :: (inputs.take STABILITY_THRESHOLD).map Prod.fst
          = (prev :: inputs.map Prod.fst).take (STABILITY_THRESHOLD + 1) := by
        simp [List.map_take]
      rw [heq]
      exact hchain.take _
    have hlenT : STABILITY_THRESHOLD ≤ st.stabilityCounter
        + (inputs.take STABILITY_THRESHOLD).length := by
      simp [List.length_take]
      omega
    have htake := scanLoopRun_stable env (inputs.take STABILITY_THRESHOLD) st prev
      h1 h2 h3 hl hns hchT (by rw [hc0]; decide) hlenT
    rw [hc0] at hfull htake
    exact ⟨hfull.1, htake.1, htake.2.1, htake.2.2⟩

end Scanner

namespace Scanner

open ScanState

/-- A continuous camera scan that has already stored a first motion frame. -/
def stDetector : ScannerState :=
  { stContinuousScan with lastFrameData := some [0, 0, 0, 0] }

/-- A scan state holding a previous raster far from the next frame. -/
def stMotion : ScannerState :=
  { stContinuousScan with lastFrameData := some [100000, 0, 0, 0],
                          stabilityCounter := 7 }

/-- Witness for C4: 25 identical frames fire exactly one capture at the
20th pair; a large-difference pair resets the counter from 7 to 0. -/
theorem stability_detector_correct_witness :
    avgDiff (flattenRGBA [(1, 2, 3, 4)]) (flattenRGBA [(5, 6, 7, 8)])
      = (pixelDiffSum ([(1, 2, 3, 4)].zip [(5, 6, 7, 8)]) : ℚ)
        / ((MOTION_CANVAS_WIDTH : ℚ) * (MOTION_CANVAS_HEIGHT : ℚ)) ∧
    (checkStabilityAndCapture envCamera [0, 0, 0, 0] [1] stMotion).1.stabilityCounter
      = 0 ∧
    (scanLoopRun envCamera stDetector
      (List.replicate 25 ([0, 0, 0, 0], [1]))).2 = [19] ∧
    (scanLoopRun envCamera stDetector
      ((List.replicate 25 ([0, 0, 0, 0], [1])).take STABILITY_THRESHOLD)).1.stabilityCounter
      = 0 := by
  have hself : avgDiff [0, 0, 0, 0] [0, 0, 0, 0] < MOTION_THRESHOLD := by
    norm_num [avgDiff, frameDiff, natAbsDiff, MOTION_THRESHOLD,
      MOTION_CANVAS_WIDTH, MOTION_CANVAS_HEIGHT]
  have hchain : List.Chain' (fun a b => avgDiff b a < MOTION_THRESHOLD)
      ([0, 0, 0, 0] :: (List.replicate 25 (([0, 0, 0, 0] : List ℕ),
        ([1] : List ℕ))).map Prod.fst) := by
    have heq : ([0, 0, 0, 0] :: (List.replicate 25 (([0, 0, 0, 0] : List ℕ),
        ([1] : List ℕ))).map Prod.fst)
        = List.replicate 26 ([0, 0, 0, 0] : List ℕ) := by
      simp [List.map_replicate, List.replicate_succ]
    rw [heq]
    exact List.chain'_replicate_of_rel 26 hself
  have hmot : MOTION_THRESHOLD ≤ avgDiff [0, 0, 0, 0] [100000, 0, 0, 0] := by
    norm_num [avgDiff, frameDiff, natAbsDiff, MOTION_THRESHOLD,
      MOTION_CANVAS_WIDTH, MOTION_CANVAS_HEIGHT]
  have hrun := stability_detector_correct.2.2 envCamera stDetector
    (List.replicate 25 ([0, 0, 0, 0], [1])) [0, 0, 0, 0]
    rfl rfl rfl rfl rfl rfl hchain (by decide)
  exact ⟨stability_detector_correct.1 [(1, 2, 3, 4)] [(5, 6, 7, 8)],
    stability_detector_correct.2.1 envCamera stMotion [0, 0, 0, 0] [1]
      [100000, 0, 0, 0] rfl rfl hmot,
    hrun.1, hrun.2.2.2⟩

end Scanner
